import Mathlib

/-!
Shallow embedding of the `joeychilson/webpage` Go library (webpage.go) and
its CLI (cmd/webpage/main.go).

Modelling choices:
* `time.Duration` (an int64 count of nanoseconds) is modelled as `Int`.
* `float64` fields (scale, paper dimensions, margins) are modelled as `Rat`;
  the claims under study concern which values are stored and forwarded, not
  floating-point arithmetic, and every value involved is carried verbatim.
* `int64` (screenshot quality) is modelled as `Int`.
* Byte buffers (`[]byte`) are modelled as `List Nat`.
* The external chromedp / DevTools browser is an oracle `BrowserEnv` giving
  the outcome of launching, navigating, and the two terminal remote calls.
* Go methods on `*Webpage` are embedded in explicit state-passing style:
  each export returns its Go result pair together with the final state of
  the receiver, so that frame properties are statable.
-/

/-- `time.Second` in nanoseconds, as in Go's `time` package. -/
def timeSecondNs : Int := 1000000000

/-- `DefaultTimeout = 30 * time.Second` (webpage.go line 14). -/
def DefaultTimeout : Int := 30 * timeSecondNs

/-- `BrowserOptions` struct: timeout and userAgent (webpage.go lines 18-21).
The Go zero value of `userAgent` is the empty string. -/
structure BrowserOptions where
  timeout : Int
  userAgent : String
deriving DecidableEq, Repr

/-- `BrowserOption` is a function modifying `BrowserOptions`. -/
def BrowserOption := BrowserOptions → BrowserOptions

/-- `WithTimeout` sets the timeout for the browser. -/
def WithTimeout (d : Int) : BrowserOption :=
  fun o => { o with timeout := d }

/-- `WithUserAgent` sets the user agent for the browser. -/
def WithUserAgent (ua : String) : BrowserOption :=
  fun o => { o with userAgent := ua }

/-- `Webpage` struct: URL plus browser options (webpage.go lines 37-40). -/
structure Webpage where
  url : String
  browser : BrowserOptions
deriving DecidableEq, Repr

/-- The option fold performed by `New`: start from
`&BrowserOptions{timeout: DefaultTimeout}` (userAgent zero-valued `""`)
and apply each option in order (webpage.go lines 44-49). -/
def applyBrowserOptions (opts : List BrowserOption) : BrowserOptions :=
  opts.foldl (fun b opt => opt b) { timeout := DefaultTimeout, userAgent := "" }

/-- `New` creates a new `Webpage` with the given URL and options. -/
def New (url : String) (opts : List BrowserOption) : Webpage :=
  { url := url, browser := applyBrowserOptions opts }

/-- `PDFOptions` struct (webpage.go lines 54-65); field names follow the
source, including the `pagerWidth` / `pagerHeight` spellings. -/
structure PDFOptions where
  landscape : Bool
  background : Bool
  scale : Rat
  pagerWidth : Rat
  pagerHeight : Rat
  marginTop : Rat
  marginBottom : Rat
  marginLeft : Rat
  marginRight : Rat
  pageRanges : String
deriving DecidableEq, Repr

/-- The Go zero value `&PDFOptions{}` used by `PDF` (webpage.go line 122). -/
def zeroPDFOptions : PDFOptions :=
  { landscape := false, background := false, scale := 0, pagerWidth := 0,
    pagerHeight := 0, marginTop := 0, marginBottom := 0, marginLeft := 0,
    marginRight := 0, pageRanges := "" }

/-- `PDFOption` is a function modifying `PDFOptions`. -/
def PDFOption := PDFOptions → PDFOptions

/-- `WithLandscape` sets the orientation of the PDF to landscape. -/
def WithLandscape (enable : Bool) : PDFOption :=
  fun o => { o with landscape := enable }

/-- `WithBackground` enables or disables the background for the PDF. -/
def WithBackground (enable : Bool) : PDFOption :=
  fun o => { o with background := enable }

/-- `WithScale` sets the scale of the PDF. -/
def WithScale (scale : Rat) : PDFOption :=
  fun o => { o with scale := scale }

/-- `WithPaperWidth` sets the width of the paper for the PDF. -/
def WithPaperWidth (width : Rat) : PDFOption :=
  fun o => { o with pagerWidth := width }

/-- `WithPaperHeight` sets the height of the paper for the PDF. -/
def WithPaperHeight (height : Rat) : PDFOption :=
  fun o => { o with pagerHeight := height }

/-- `WithMarginTop` sets the top margin for the PDF. -/
def WithMarginTop (top : Rat) : PDFOption :=
  fun o => { o with marginTop := top }

/-- `WithMarginBottom` sets the bottom margin for the PDF. -/
def WithMarginBottom (bottom : Rat) : PDFOption :=
  fun o => { o with marginBottom := bottom }

/-- `WithMarginLeft` sets the left margin for the PDF. -/
def WithMarginLeft (left : Rat) : PDFOption :=
  fun o => { o with marginLeft := left }

/-- `WithMarginRight` sets the right margin for the PDF. -/
def WithMarginRight (right : Rat) : PDFOption :=
  fun o => { o with marginRight := right }

/-- `WithPageRanges` sets the page ranges for the PDF. -/
def WithPageRanges (ranges : String) : PDFOption :=
  fun o => { o with pageRanges := ranges }

/-- The option fold performed by `PDF` (webpage.go lines 122-125):
apply each option in order to the zero-valued struct. -/
def applyPDFOptions (opts : List PDFOption) : PDFOptions :=
  opts.foldl (fun o opt => opt o) zeroPDFOptions

/-- `ScreenshotOptions` struct (webpage.go lines 179-182). -/
structure ScreenshotOptions where
  format : String
  quality : Int
deriving DecidableEq, Repr

/-- The defaults `Screenshot` starts from: format "png", quality 100
(webpage.go lines 199-202). -/
def defaultScreenshotOptions : ScreenshotOptions :=
  { format := "png", quality := 100 }

/-- `ScreenshotOption` is a function modifying `ScreenshotOptions`. -/
def ScreenshotOption := ScreenshotOptions → ScreenshotOptions

/-- `WithFormat` sets the format of the screenshot. -/
def WithFormat (format : String) : ScreenshotOption :=
  fun o => { o with format := format }

/-- `WithQuality` sets the quality of the screenshot. -/
def WithQuality (quality : Int) : ScreenshotOption :=
  fun o => { o with quality := quality }

/-- The option fold performed by `Screenshot` (webpage.go lines 203-205). -/
def applyScreenshotOptions (opts : List ScreenshotOption) : ScreenshotOptions :=
  opts.foldl (fun o opt => opt o) defaultScreenshotOptions

/-- Browser launch arguments (`chromedp.ExecAllocatorOption`), restricted to
the ones this program uses. -/
inductive ExecAllocatorOption where
  | disableGPU
  | noSandbox
  | headless
  | userAgentFlag (ua : String)
deriving DecidableEq, Repr

/-- The unconditional launch options `DisableGPU, NoSandbox, Headless`
(webpage.go lines 127-131 and 207-211). -/
def baseExecOpts : List ExecAllocatorOption :=
  [ExecAllocatorOption.disableGPU, ExecAllocatorOption.noSandbox,
   ExecAllocatorOption.headless]

/-- Launch options built from the browser configuration.  Both `PDF`
(webpage.go lines 127-135) and `Screenshot` (lines 207-215) build this
list with identical code: the base options, plus
`chromedp.UserAgent(w.browser.userAgent)` appended exactly when
`w.browser.userAgent != ""`. -/
def launchExecOpts (b : BrowserOptions) : List ExecAllocatorOption :=
  if b.userAgent ≠ "" then
    baseExecOpts ++ [ExecAllocatorOption.userAgentFlag b.userAgent]
  else
    baseExecOpts

/-- Parameters the `PDF` export forwards to `page.PrintToPDF()` via its
`With*` builder calls (webpage.go lines 152-164); named after the
DevTools parameters each builder sets. -/
structure PrintToPDFParams where
  landscape : Bool
  printBackground : Bool
  scale : Rat
  paperWidth : Rat
  paperHeight : Rat
  marginTop : Rat
  marginBottom : Rat
  marginLeft : Rat
  marginRight : Rat
  pageRanges : String
deriving DecidableEq, Repr

/-- The verbatim forwarding of `PDFOptions` fields into the print-to-PDF
remote call (webpage.go lines 152-164). -/
def pdfParams (o : PDFOptions) : PrintToPDFParams :=
  { landscape := o.landscape, printBackground := o.background,
    scale := o.scale, paperWidth := o.pagerWidth,
    paperHeight := o.pagerHeight, marginTop := o.marginTop,
    marginBottom := o.marginBottom, marginLeft := o.marginLeft,
    marginRight := o.marginRight, pageRanges := o.pageRanges }

/-- Parameters the `Screenshot` export forwards to
`page.CaptureScreenshot()` (webpage.go lines 231-236). -/
structure CaptureScreenshotParams where
  captureBeyondViewport : Bool
  fromSurface : Bool
  format : String
  quality : Int
deriving DecidableEq, Repr

/-- The forwarding of `ScreenshotOptions` into the capture-screenshot
remote call: capture-beyond-viewport and from-surface hard-coded `true`,
format and quality from the options (webpage.go lines 231-236). -/
def screenshotParams (o : ScreenshotOptions) : CaptureScreenshotParams :=
  { captureBeyondViewport := true, fromSurface := true,
    format := o.format, quality := o.quality }

/-- Oracle for the external chromedp / browser collaborator: the outcome of
launching the allocator with given options, navigating to a URL, and the
two terminal remote calls.  Each returns either an error message or a
success value (bytes for the remote calls). -/
structure BrowserEnv where
  launch : List ExecAllocatorOption → Except String Unit
  navigate : String → Except String Unit
  printToPDF : PrintToPDFParams → Except String (List Nat)
  captureScreenshot : CaptureScreenshotParams → Except String (List Nat)

/-- `(*Webpage).PDF` (webpage.go lines 121-176), embedded in state-passing
style.  The first component is the Go return pair `([]byte, error)`
(`nil` bytes modelled as `[]`, `nil` error as `none`); the second is the
receiver state when the call returns — the body never assigns to `w`.
Error wrapping follows the source: a failing print-to-PDF call is wrapped
`"failed to generate PDF: %w"` inside the task, and any task failure is
wrapped `"failed to execute tasks: %w"` by the caller of `chromedp.Run`. -/
def Webpage.PDF (w : Webpage) (env : BrowserEnv) (opts : List PDFOption) :
    (List Nat × Option String) × Webpage :=
  let pdfOpts := applyPDFOptions opts
  let run : List Nat × Option String :=
    match env.launch (launchExecOpts w.browser) with
    | Except.error e => ([], some ("failed to execute tasks: " ++ e))
    | Except.ok _ =>
      match env.navigate w.url with
      | Except.error e => ([], some ("failed to execute tasks: " ++ e))
      | Except.ok _ =>
        match env.printToPDF (pdfParams pdfOpts) with
        | Except.error e =>
            ([], some ("failed to execute tasks: " ++
              ("failed to generate PDF: " ++ e)))
        | Except.ok buf => (buf, none)
  (run, w)

/-- CLI global persistent flags (main.go lines 120-122): timeout `-t`
(default 30s), user-agent `-u` (default ""), output path `-o`
(default "output"). -/
structure GlobalFlags where
  timeout : Int
  userAgent : String
  output : String
deriving DecidableEq, Repr

/-- The default values of the CLI global flags (main.go lines 120-122). -/
def defaultGlobalFlags : GlobalFlags :=
  { timeout := 30 * timeSecondNs, userAgent := "", output := "output" }

/-- CLI flags of the `pdf` subcommand (main.go lines 125-134). -/
structure PDFFlags where
  landscape : Bool
  background : Bool
  scale : Rat
  paperWidth : Rat
  paperHeight : Rat
  marginTop : Rat
  marginBottom : Rat
  marginLeft : Rat
  marginRight : Rat
  pageRanges : String
deriving DecidableEq, Repr

/-- The default values registered for the `pdf` subcommand flags
(main.go lines 125-134): landscape false, background false, scale 1.0,
width 8.5, height 11.0, all four margins 0.4, pages "". -/
def defaultPDFFlags : PDFFlags :=
  { landscape := false, background := false, scale := 1,
    paperWidth := 17/2, paperHeight := 11, marginTop := 2/5,
    marginBottom := 2/5, marginLeft := 2/5, marginRight := 2/5,
    pageRanges := "" }

/-- Browser options the CLI assembles for either subcommand
(main.go lines 45-50 and 90-95): always `WithTimeout`, plus
`WithUserAgent` exactly when the flag is non-empty. -/
def cliBrowserOptionList (gf : GlobalFlags) : List BrowserOption :=
  [WithTimeout gf.timeout] ++
    (if gf.userAgent ≠ "" then [WithUserAgent gf.userAgent] else [])

/-- PDF options the `pdf` subcommand assembles (main.go lines 54-67):
nine explicit setters from flag values, plus `WithPageRanges` exactly
when the `--pages` flag is non-empty. -/
def cliPDFOptionList (pf : PDFFlags) : List PDFOption :=
  [WithLandscape pf.landscape, WithBackground pf.background,
   WithScale pf.scale, WithPaperWidth pf.paperWidth,
   WithPaperHeight pf.paperHeight, WithMarginTop pf.marginTop,
   WithMarginBottom pf.marginBottom, WithMarginLeft pf.marginLeft,
   WithMarginRight pf.marginRight] ++
    (if pf.pageRanges ≠ "" then [WithPageRanges pf.pageRanges] else [])

/-- Observable outcome of one `RunE` body: the error it returns (if any),
the `os.WriteFile` calls it performed (path and bytes), and the lines it
printed to standard output. -/
structure CmdResult where
  err : Option String
  writes : List (String × List Nat)
  stdout : List String
deriving DecidableEq, Repr

/-- The `RunE` body of the `pdf` subcommand (main.go lines 42-80).
`writeErr` is the outcome of the single `os.WriteFile` call, supplied by
the file-system oracle.  On export failure the error is wrapped
`"failed to generate PDF: %w"` and returned before any write; on write
failure the error is wrapped `"failed to write PDF file: %w"`; on success
a confirmation line is printed. -/
def pdfCmdRunE (gf : GlobalFlags) (pf : PDFFlags) (url : String)
    (env : BrowserEnv) (writeErr : Option String) : CmdResult :=
  let page := New url (cliBrowserOptionList gf)
  match (page.PDF env (cliPDFOptionList pf)).1 with
  | (_, some e) =>
      { err := some ("failed to generate PDF: " ++ e), writes := [],
        stdout := [] }
  | (pdf, none) =>
    match writeErr with
    | some e =>
        { err := some ("failed to write PDF file: " ++ e),
          writes := [(gf.output, pdf)], stdout := [] }
    | none =>
        { err := none, writes := [(gf.output, pdf)],
          stdout := ["PDF saved to: " ++ gf.output] }

/-- Observable outcome of the whole CLI process: exit code, standard-error
lines, standard-output lines, and file writes performed. -/
structure CLIResult where
  exitCode : Nat
  stderr : List String
  stdout : List String
  writes : List (String × List Nat)
deriving DecidableEq, Repr

/-- `main` (main.go lines 144-149) when the `pdf` subcommand is selected:
run its `RunE`; if it returned an error, print the single line
`"Error: %v"` to standard error and exit 1, otherwise exit 0. -/
def runMainPDF (gf : GlobalFlags) (pf : PDFFlags) (url : String)
    (env : BrowserEnv) (writeErr : Option String) : CLIResult :=
  let r := pdfCmdRunE gf pf url env writeErr
  match r.err with
  | some e =>
      { exitCode := 1, stderr := ["Error: " ++ e], stdout := r.stdout,
        writes := r.writes }
  | none =>
      { exitCode := 0, stderr := [], stdout := r.stdout, writes := r.writes }

/-- A concrete environment whose navigation step always fails, standing for
an unreachable host; used by the witnesses below. -/
def failNavEnv : BrowserEnv :=
  { launch := fun _ => Except.ok (),
    navigate := fun _ => Except.error "net::ERR_NAME_NOT_RESOLVED",
    printToPDF := fun _ => Except.error "not reached",
    captureScreenshot := fun _ => Except.error "not reached" }

/-- `(*Webpage).Screenshot` (webpage.go lines 198-248), embedded like
`Webpage.PDF`.  A failing capture call is wrapped
`"failed to capture screenshot: %w"`, and any task failure is wrapped
`"failed to execute tasks: %w"`. -/
def Webpage.Screenshot (w : Webpage) (env : BrowserEnv)
    (opts : List ScreenshotOption) :
    (List Nat × Option String) × Webpage :=
  let screenshotOpts := applyScreenshotOptions opts
  let run : List Nat × Option String :=
    match env.launch (launchExecOpts w.browser) with
    | Except.error e => ([], some ("failed to execute tasks: " ++ e))
    | Except.ok _ =>
      match env.navigate w.url with
      | Except.error e => ([], some ("failed to execute tasks: " ++ e))
      | Except.ok _ =>
        match env.captureScreenshot (screenshotParams screenshotOpts) with
        | Except.error e =>
            ([], some ("failed to execute tasks: " ++
              ("failed to capture screenshot: " ++ e)))
        | Except.ok buf => (buf, none)
  (run, w)

/-- C1: a library PDF export with no `PDFOption` forwards the zero values
(landscape=false, background=false, scale=0, paperWidth=0, paperHeight=0,
all four margins=0, pageRanges="") to the print-to-PDF call, while the
CLI `pdf` subcommand with default flags supplies explicit defaults
(scale 1.0, width 8.5, height 11.0, margins 0.4); the two surfaces have
different default policies. -/
theorem c1_library_cli_default_divergence :
    pdfParams (applyPDFOptions []) =
      { landscape := false, printBackground := false, scale := 0,
        paperWidth := 0, paperHeight := 0, marginTop := 0,
        marginBottom := 0, marginLeft := 0, marginRight := 0,
        pageRanges := "" } ∧
    pdfParams (applyPDFOptions (cliPDFOptionList defaultPDFFlags)) =
      { landscape := false, printBackground := false, scale := 1,
        paperWidth := 17/2, paperHeight := 11, marginTop := 2/5,
        marginBottom := 2/5, marginLeft := 2/5, marginRight := 2/5,
        pageRanges := "" } ∧
    pdfParams (applyPDFOptions []) ≠
      pdfParams (applyPDFOptions (cliPDFOptionList defaultPDFFlags)) := by
  refine ⟨rfl, rfl, fun h => ?_⟩
  have hscale := congrArg PrintToPDFParams.scale h
  exact absurd hscale (by norm_num [pdfParams, applyPDFOptions,
    zeroPDFOptions, cliPDFOptionList, defaultPDFFlags, WithLandscape,
    WithBackground, WithScale, WithPaperWidth, WithPaperHeight,
    WithMarginTop, WithMarginBottom, WithMarginLeft, WithMarginRight])

/-- C3: for each option-container kind the setters are folded left-to-right
over the default-initialized struct (appending a setter applies it last),
two setters for the same field keep the value of the last one, and fields
no setter targets keep their defaults. -/
theorem c3_setters_left_to_right_last_write_wins :
    (∀ (opts : List BrowserOption) (f : BrowserOption),
      applyBrowserOptions (opts ++ [f]) = f (applyBrowserOptions opts)) ∧
    (∀ (opts : List PDFOption) (f : PDFOption),
      applyPDFOptions (opts ++ [f]) = f (applyPDFOptions opts)) ∧
    (∀ (opts : List ScreenshotOption) (f : ScreenshotOption),
      applyScreenshotOptions (opts ++ [f]) = f (applyScreenshotOptions opts)) ∧
    (∀ a b : Int, applyBrowserOptions [WithTimeout a, WithTimeout b] =
      { timeout := b, userAgent := "" }) ∧
    (∀ a b : String, applyBrowserOptions [WithUserAgent a, WithUserAgent b] =
      { timeout := DefaultTimeout, userAgent := b }) ∧
    (∀ a b : Bool, applyPDFOptions [WithLandscape a, WithLandscape b] =
      { zeroPDFOptions with landscape := b }) ∧
    (∀ a b : Bool, applyPDFOptions [WithBackground a, WithBackground b] =
      { zeroPDFOptions with background := b }) ∧
    (∀ a b : Rat, applyPDFOptions [WithScale a, WithScale b] =
      { zeroPDFOptions with scale := b }) ∧
    (∀ a b : Rat, applyPDFOptions [WithPaperWidth a, WithPaperWidth b] =
      { zeroPDFOptions with pagerWidth := b }) ∧
    (∀ a b : Rat, applyPDFOptions [WithPaperHeight a, WithPaperHeight b] =
      { zeroPDFOptions with pagerHeight := b }) ∧
    (∀ a b : Rat, applyPDFOptions [WithMarginTop a, WithMarginTop b] =
      { zeroPDFOptions with marginTop := b }) ∧
    (∀ a b : Rat, applyPDFOptions [WithMarginBottom a, WithMarginBottom b] =
      { zeroPDFOptions with marginBottom := b }) ∧
    (∀ a b : Rat, applyPDFOptions [WithMarginLeft a, WithMarginLeft b] =
      { zeroPDFOptions with marginLeft := b }) ∧
    (∀ a b : Rat, applyPDFOptions [WithMarginRight a, WithMarginRight b] =
      { zeroPDFOptions with marginRight := b }) ∧
    (∀ a b : String, applyPDFOptions [WithPageRanges a, WithPageRanges b] =
      { zeroPDFOptions with pageRanges := b }) ∧
    (∀ a b : String, applyScreenshotOptions [WithFormat a, WithFormat b] =
      { defaultScreenshotOptions with format := b }) ∧
    (∀ a b : Int, applyScreenshotOptions [WithQuality a, WithQuality b] =
      { defaultScreenshotOptions with quality := b }) := by
  refine ⟨?_, ?_, ?_, ?_, ?_, ?_, ?_, ?_, ?_, ?_, ?_, ?_, ?_, ?_, ?_, ?_, ?_⟩
  · intro opts f; simp [applyBrowserOptions, List.foldl_append]
  · intro opts f; simp [applyPDFOptions, List.foldl_append]
  · intro opts f; simp [applyScreenshotOptions, List.foldl_append]
  all_goals intro a b; rfl

/-- C4: `New(url)` with no browser option yields timeout exactly 30 seconds
(30 * 10^9 nanoseconds) and an empty (unset) user agent. -/
theorem c4_new_default_browser_config :
    ∀ url : String,
      (New url []).browser.timeout = 30 * timeSecondNs ∧
      (New url []).browser.userAgent = "" ∧
      (New url []).browser.timeout = DefaultTimeout := by
  intro url; exact ⟨rfl, rfl, rfl⟩

/-- C5: a Screenshot call with no option uses format "png" and quality 100,
and forwards exactly those to the capture-screenshot call. -/
theorem c5_screenshot_default_options :
    applyScreenshotOptions [] = { format := "png", quality := 100 } ∧
    screenshotParams (applyScreenshotOptions []) =
      { captureBeyondViewport := true, fromSurface := true,
        format := "png", quality := 100 } :=
  ⟨rfl, rfl⟩

/-- C7: whatever options are supplied, the capture-screenshot call is issued
with capture-beyond-viewport and from-surface both true, and the
caller-supplied format and quality forwarded. -/
theorem c7_capture_semantics_unconditional :
    ∀ opts : List ScreenshotOption,
      (screenshotParams (applyScreenshotOptions opts)).captureBeyondViewport
        = true ∧
      (screenshotParams (applyScreenshotOptions opts)).fromSurface = true ∧
      (screenshotParams (applyScreenshotOptions opts)).format =
        (applyScreenshotOptions opts).format ∧
      (screenshotParams (applyScreenshotOptions opts)).quality =
        (applyScreenshotOptions opts).quality := by
  intro opts; exact ⟨rfl, rfl, rfl, rfl⟩

/-- C8: setters are total functions that store every input value unchanged,
with no validation; out-of-range values such as a negative margin or a
quality of 500 are stored and forwarded uninterpreted into the remote-call
parameters. -/
theorem c8_setters_store_unvalidated :
    (∀ v : Rat, ∀ o : PDFOptions,
      WithMarginTop v o = { o with marginTop := v }) ∧
    (∀ v : Rat, (pdfParams (applyPDFOptions [WithMarginTop v])).marginTop = v) ∧
    (∀ v : Rat, (pdfParams (applyPDFOptions [WithScale v])).scale = v) ∧
    (∀ q : Int, ∀ o : ScreenshotOptions,
      WithQuality q o = { o with quality := q }) ∧
    (∀ q : Int,
      (screenshotParams (applyScreenshotOptions [WithQuality q])).quality = q) ∧
    (pdfParams (applyPDFOptions [WithMarginTop (-1)])).marginTop = -1 ∧
    (screenshotParams (applyScreenshotOptions [WithQuality 500])).quality
      = 500 := by
  exact ⟨fun v o => rfl, fun v => rfl, fun v => rfl, fun q o => rfl,
    fun q => rfl, rfl, rfl⟩

/-- C9: PDF and Screenshot leave the receiver handle — its url and its
browser configuration — unchanged, whatever the options and outcome: the
final receiver state equals the initial one. -/
theorem c9_exports_do_not_mutate_handle :
    ∀ (w : Webpage) (env : BrowserEnv) (popts : List PDFOption)
      (sopts : List ScreenshotOption),
      (w.PDF env popts).2 = w ∧ (w.PDF env popts).2.url = w.url ∧
      (w.PDF env popts).2.browser = w.browser ∧
      (w.Screenshot env sopts).2 = w ∧
      (w.Screenshot env sopts).2.browser = w.browser := by
  intro w env popts sopts; exact ⟨rfl, rfl, rfl, rfl, rfl⟩

/-- C2: whenever a PDF or Screenshot export fails (the returned error is
non-nil), the returned byte buffer is empty — never a partial result — and
the error is wrapped with context; when the terminal remote call itself is
what failed, the wrapping names that call ("failed to generate PDF" /
"failed to capture screenshot"). -/
theorem c2_export_failure_no_partial_result :
    ∀ (w : Webpage) (env : BrowserEnv) (popts : List PDFOption)
      (sopts : List ScreenshotOption),
      ((w.PDF env popts).1.2 ≠ none →
        (w.PDF env popts).1.1 = [] ∧
        ∃ e, (w.PDF env popts).1.2 =
          some ("failed to execute tasks: " ++ e)) ∧
      ((w.Screenshot env sopts).1.2 ≠ none →
        (w.Screenshot env sopts).1.1 = [] ∧
        ∃ e, (w.Screenshot env sopts).1.2 =
          some ("failed to execute tasks: " ++ e)) ∧
      (∀ e, env.launch (launchExecOpts w.browser) = Except.ok () →
        env.navigate w.url = Except.ok () →
        env.printToPDF (pdfParams (applyPDFOptions popts)) = Except.error e →
        (w.PDF env popts).1 = ([], some ("failed to execute tasks: " ++
          ("failed to generate PDF: " ++ e)))) ∧
      (∀ e, env.launch (launchExecOpts w.browser) = Except.ok () →
        env.navigate w.url = Except.ok () →
        env.captureScreenshot (screenshotParams (applyScreenshotOptions sopts))
          = Except.error e →
        (w.Screenshot env sopts).1 = ([], some ("failed to execute tasks: " ++
          ("failed to capture screenshot: " ++ e)))) := by
  intro w env popts sopts
  refine ⟨?_, ?_, ?_, ?_⟩
  · intro hne
    simp only [Webpage.PDF] at hne ⊢
    cases hl : env.launch (launchExecOpts w.browser) with
    | error e => simp [hl]
    | ok u =>
      cases u
      cases hn : env.navigate w.url with
      | error e => simp [hl, hn]
      | ok v =>
        cases v
        cases hp : env.printToPDF (pdfParams (applyPDFOptions popts)) with
        | error e => simp [hl, hn, hp]
        | ok buf => simp [hl, hn, hp] at hne
  · intro hne
    simp only [Webpage.Screenshot] at hne ⊢
    cases hl : env.launch (launchExecOpts w.browser) with
    | error e => simp [hl]
    | ok u =>
      cases u
      cases hn : env.navigate w.url with
      | error e => simp [hl, hn]
      | ok v =>
        cases v
        cases hp : env.captureScreenshot
            (screenshotParams (applyScreenshotOptions sopts)) with
        | error e => simp [hl, hn, hp]
        | ok buf => simp [hl, hn, hp] at hne
  · intro e hl hn hp
    simp [Webpage.PDF, hl, hn, hp]
  · intro e hl hn hp
    simp [Webpage.Screenshot, hl, hn, hp]

/-- Witness for C2: against `failNavEnv` (an unreachable host), both exports
return empty bytes and a wrapped non-nil error. -/
theorem c2_export_failure_no_partial_result_witness :
    ((New "http://unreachable.invalid" []).PDF failNavEnv []).1.1 = [] ∧
    (∃ e, ((New "http://unreachable.invalid" []).PDF failNavEnv []).1.2 =
      some ("failed to execute tasks: " ++ e)) ∧
    ((New "http://unreachable.invalid" []).Screenshot failNavEnv []).1.1
      = [] ∧
    (∃ e,
      ((New "http://unreachable.invalid" []).Screenshot failNavEnv []).1.2 =
        some ("failed to execute tasks: " ++ e)) := by
  have h := c2_export_failure_no_partial_result
    (New "http://unreachable.invalid" []) failNavEnv [] []
  have hpdf := h.1 (by decide)
  have hshot := h.2.1 (by decide)
  exact ⟨hpdf.1, hpdf.2, hshot.1, hshot.2⟩

/-- C6: if the export step of the CLI `pdf` subcommand fails with error `e`,
the process exits with code 1, prints the single standard-error line
`"Error: failed to generate PDF: " ++ e`, prints nothing to standard
output, and performs no file write; conversely a file write happens only
when the export returned a nil error. -/
theorem c6_cli_pdf_failure_behavior :
    ∀ (gf : GlobalFlags) (pf : PDFFlags) (url : String) (env : BrowserEnv)
      (writeErr : Option String),
      (∀ e,
        ((New url (cliBrowserOptionList gf)).PDF env
          (cliPDFOptionList pf)).1.2 = some e →
        runMainPDF gf pf url env writeErr =
          { exitCode := 1,
            stderr := ["Error: " ++ ("failed to generate PDF: " ++ e)],
            stdout := [], writes := [] }) ∧
      ((pdfCmdRunE gf pf url env writeErr).writes ≠ [] →
        ((New url (cliBrowserOptionList gf)).PDF env
          (cliPDFOptionList pf)).1.2 = none) := by
  intro gf pf url env writeErr
  rcases hp : ((New url (cliBrowserOptionList gf)).PDF env
      (cliPDFOptionList pf)).1 with ⟨bytes, err⟩
  cases err with
  | none =>
    constructor
    · intro e he
      simp at he
    · intro _
      rfl
  | some e0 =>
    constructor
    · intro e he
      simp at he
      subst he
      simp [runMainPDF, pdfCmdRunE, hp]
    · intro hw
      simp [pdfCmdRunE, hp] at hw

/-- Witness for C6: `pdf not-a-real-url` against an unreachable host exits 1,
prints one error line containing "failed to generate PDF", and writes no
file. -/
theorem c6_cli_pdf_failure_behavior_witness :
    runMainPDF defaultGlobalFlags defaultPDFFlags "not-a-real-url"
        failNavEnv none =
      { exitCode := 1,
        stderr := ["Error: " ++ ("failed to generate PDF: " ++
          ("failed to execute tasks: " ++ "net::ERR_NAME_NOT_RESOLVED"))],
        stdout := [], writes := [] } :=
  (c6_cli_pdf_failure_behavior defaultGlobalFlags defaultPDFFlags
    "not-a-real-url" failNavEnv none).1
    ("failed to execute tasks: " ++ "net::ERR_NAME_NOT_RESOLVED") rfl

/-- C10: in the launch options both exports build, the user-agent flag is
present exactly when the stored userAgent is non-empty, so a user agent
set to the empty string is indistinguishable from no user agent:
`New(url, WithUserAgent(""))` launches with the base flags only. -/
theorem c10_empty_user_agent_indistinguishable :
    (∀ (b : BrowserOptions) (ua : String),
      ExecAllocatorOption.userAgentFlag ua ∈ launchExecOpts b ↔
        (b.userAgent ≠ "" ∧ ua = b.userAgent)) ∧
    (∀ url : String,
      launchExecOpts (New url [WithUserAgent ""]).browser = baseExecOpts ∧
      launchExecOpts (New url []).browser =
        launchExecOpts (New url [WithUserAgent ""]).browser) := by
  constructor
  · intro b ua
    by_cases hb : b.userAgent = ""
    · simp [launchExecOpts, hb, baseExecOpts]
    · simp [launchExecOpts, hb, baseExecOpts]
  · intro url
    exact ⟨rfl, rfl⟩
